import Mathlib

/-!
Verification development for the QX-Algo intraday trading engine.

The Python source is shallowly embedded: prices and dollar amounts are
modelled as exact rationals (ℚ), timestamps as civil dates (`Int`, a day
ordinal in the exchange's US/Eastern calendar) paired with a minute-of-day
(`Nat`), and the stateful engine methods become pure functions on explicit
state records.  Numeric literals from the source are translated exactly:
`0.25 = 1/4`, `1.25 = 5/4`, `0.12 = 12/100`, `0.75 = 3/4`, `0.20 = 1/5`,
`0.015 = 3/200`, `0.02 = 1/50`, `0.01 = 1/100`, `0.30 = 3/10`.
-/

namespace QX

/-- One OHLCV bar (`model_logic.py` consumes a DataFrame of such rows).
`date` is the civil calendar date (day ordinal), `tod` the minute of day
in the exchange's local calendar; `op`/`hi`/`lo`/`cl` are the open, high,
low and close columns.  Volume is never read by the embedded code, so it
is omitted. -/
structure Bar where
  date : Int
  tod : Nat
  op : ℚ
  hi : ℚ
  lo : ℚ
  cl : ℚ
  deriving DecidableEq, Repr

/-- Absolute timestamp, in minutes, of a civil (date, minute-of-day) pair. -/
def absTime (d : Int) (m : Nat) : Int := d * 1440 + (m : Int)

/-- Absolute timestamp of a bar. -/
def Bar.ts (b : Bar) : Int := absTime b.date b.tod

/-- The three recurring sessions (`'odr'`, `'rdr'`, `'adr'` in the source). -/
inductive Session where
  | odr
  | rdr
  | adr
  deriving DecidableEq, Repr

/-- Directional bias of a confirmation (`'bullish'` / `'bearish'`). -/
inductive Bias where
  | bullish
  | bearish
  deriving DecidableEq, Repr

/-- Range-formation window of each session, as minutes of day, inclusive
both ends exactly as `QXRange.compute_boundaries` filters
(`time >= start & time <= end`).  From `model_logic.py` lines 13-18:
ODR 03:00-03:55, RDR 09:30-10:25, ADR 19:30-20:25. -/
def formation_window : Session → Nat × Nat
  | Session.odr => (180, 235)
  | Session.rdr => (570, 625)
  | Session.adr => (1170, 1225)

/-- Trading window of each session for a given formation date, as absolute
timestamps, from `QXRange.detect_confirmations` (`model_logic.py` lines
148-152 and 188-195): ODR 04:00-08:00, RDR 10:30-16:00 on the same date,
ADR 20:30 on the date through 01:00 on the next calendar date. -/
def trading_window (s : Session) (d : Int) : Int × Int :=
  match s with
  | Session.odr => (absTime d 240, absTime d 480)
  | Session.rdr => (absTime d 630, absTime d 960)
  | Session.adr => (absTime d 1230, absTime (d + 1) 60)

/-- DR/IDR boundary values for one (session, date), as broadcast onto that
date's rows by `QXRange.compute_boundaries`.  `dr_end` is the timestamp of
the formation slice's last bar. -/
structure RangeBoundaries where
  dr_high : ℚ
  dr_low : ℚ
  idr_high : ℚ
  idr_low : ℚ
  dr_end : Int
  deriving DecidableEq, Repr

/-- Candle-body high of a bar: `max(open, close)` (`model_logic.py` line 88). -/
def body_high (b : Bar) : ℚ := max b.op b.cl

/-- Candle-body low of a bar: `min(open, close)` (`model_logic.py` line 89). -/
def body_low (b : Bar) : ℚ := min b.op b.cl

/-- The bars of date `d` whose time of day falls inside session `s`'s
formation window, inclusive both ends (`model_logic.py` lines 52, 72-77:
group by civil date, then `time >= start & time <= end`). -/
def formation_slice (s : Session) (d : Int) (bars : List Bar) : List Bar :=
  bars.filter fun b =>
    decide (b.date = d) && decide ((formation_window s).1 ≤ b.tod) &&
      decide (b.tod ≤ (formation_window s).2)

/-- `QXRange.compute_boundaries` for one (session, date) (`model_logic.py`
lines 79-102): if the formation slice has at least 5 bars, DR high/low are
the max high / min low over the slice (wicks included), IDR high/low are
the max/min of the per-bar body high/low, and `dr_end` is the slice's last
bar timestamp; otherwise the boundaries are undefined (NaN in the source,
`none` here). -/
def compute_boundaries (s : Session) (d : Int) (bars : List Bar) :
    Option RangeBoundaries :=
  match formation_slice s d bars with
  | [] => none
  | f :: rest =>
    if 5 ≤ (f :: rest).length then
      some
        { dr_high := (rest.map Bar.hi).foldl max f.hi
          dr_low := (rest.map Bar.lo).foldl min f.lo
          idr_high := (rest.map body_high).foldl max (body_high f)
          idr_low := (rest.map body_low).foldl min (body_low f)
          dr_end := Bar.ts (rest.getLastD f) }
    else none

/-- Earliest timestamp among the bars of `l` satisfying `p`
(`model_logic.py` lines 219-220: `index[mask].min()`), `none` when no bar
matches. -/
def first_break_time (p : Bar → Bool) (l : List Bar) : Option Int :=
  ((l.filter p).map Bar.ts).min?

/-- `QXRange.detect_confirmations` for one (session, date)
(`model_logic.py` lines 162-237).  The source groups the bar frame by
civil date (`df.groupby('date')`), so `day_data` holds only the bars whose
calendar date equals `d`; the trading-window mask is then applied to that
day's bars, the bars after `dr_end` are kept, and the first close above
`dr_high` (bullish) or below `dr_low` (bearish) — whichever is earlier —
is the confirmation. -/
def detect_confirmations (s : Session) (d : Int) (bars : List Bar) :
    Option (Int × Bias) :=
  match compute_boundaries s d bars with
  | none => none
  | some b =>
    let day_data := bars.filter fun bar => decide (bar.date = d)
    let w := trading_window s d
    let trading := day_data.filter fun bar =>
      decide (w.1 ≤ bar.ts) && decide (bar.ts ≤ w.2)
    let post := trading.filter fun bar => decide (b.dr_end < bar.ts)
    let first_bullish := first_break_time (fun bar => decide (b.dr_high < bar.cl)) post
    let first_bearish := first_break_time (fun bar => decide (bar.cl < b.dr_low)) post
    match first_bullish, first_bearish with
    | some tb, some te => if tb < te then some (tb, Bias.bullish) else some (te, Bias.bearish)
    | some tb, none => some (tb, Bias.bullish)
    | none, some te => some (te, Bias.bearish)
    | none, none => none

/-- Modelled from the spec's words, for comparison with
`detect_confirmations` (claim C1): the confirmation search covers every
bar of the full trading interval — from 20:30 on the formation date
through 01:00 on the next calendar date for ADR — rather than only the
bars sharing the formation date's calendar date.  Identical to
`detect_confirmations` except that the date-grouping restriction is
absent. -/
def detect_confirmations_full_window (s : Session) (d : Int) (bars : List Bar) :
    Option (Int × Bias) :=
  match compute_boundaries s d bars with
  | none => none
  | some b =>
    let w := trading_window s d
    let trading := bars.filter fun bar =>
      decide (w.1 ≤ bar.ts) && decide (bar.ts ≤ w.2)
    let post := trading.filter fun bar => decide (b.dr_end < bar.ts)
    let first_bullish := first_break_time (fun bar => decide (b.dr_high < bar.cl)) post
    let first_bearish := first_break_time (fun bar => decide (bar.cl < b.dr_low)) post
    match first_bullish, first_bearish with
    | some tb, some te => if tb < te then some (tb, Bias.bullish) else some (te, Bias.bearish)
    | some tb, none => some (tb, Bias.bullish)
    | none, some te => some (te, Bias.bearish)
    | none, none => none

/-- MES tick size (`topstepx_market_client.py` line 27: `TICK_SIZE = 0.25`). -/
def TICK_SIZE : ℚ := 1 / 4

/-- MES tick value (`topstepx_market_client.py` line 28: `TICK_VALUE = 1.25`). -/
def TICK_VALUE : ℚ := 5 / 4

/-- MES point value (`topstepx_market_client.py` line 29: `POINT_VALUE = 5.0`). -/
def POINT_VALUE : ℚ := 5

/-- Maximum daily loss (`topstepx_market_client.py` line 60:
`self.max_daily_loss = 2000`; set once at construction, never mutated). -/
def MAX_DAILY_LOSS : ℚ := 2000

/-- The risk-management slice of `TopstepXMarketClient`'s state
(`topstepx_market_client.py` lines 47-61).  The per-session maps are
`defaultdict`s in the source, hence total functions here. -/
structure RiskState where
  daily_pnl : ℚ
  session_trades : Session → Nat
  session_pnl : Session → ℚ
  consecutive_wins : Nat
  consecutive_losses : Nat
  current_risk_percent : ℚ
  last_trade_win : Option Bool
  account_balance_virtual : ℚ

/-- The risk state as `__init__` builds it (`topstepx_market_client.py`
lines 47-61): zero P&L and counters, 1.5% risk, $2000 virtual balance. -/
def init_risk_state : RiskState :=
  { daily_pnl := 0
    session_trades := fun _ => 0
    session_pnl := fun _ => 0
    consecutive_wins := 0
    consecutive_losses := 0
    current_risk_percent := 3 / 200
    last_trade_win := none
    account_balance_virtual := 2000 }

/-- `reset_daily` (`topstepx_market_client.py` lines 67-80): clears the
daily P&L, per-session counters and P&L, streaks, risk percent and
last-result flag.  The virtual balance is not reset by the source. -/
def reset_daily (s : RiskState) : RiskState :=
  { s with
    daily_pnl := 0
    session_trades := fun _ => 0
    session_pnl := fun _ => 0
    consecutive_wins := 0
    consecutive_losses := 0
    current_risk_percent := 3 / 200
    last_trade_win := none }

/-- `update_risk_state` (`topstepx_market_client.py` lines 82-98): adds the
realized P&L to the daily P&L and the virtual balance, then updates the
streak counters and the risk percent (win: risk 2% at exactly 2 straight
wins, back to 1.5% beyond; non-positive result: risk 1%). -/
def update_risk_state (s : RiskState) (trade_pnl : ℚ) : RiskState :=
  let s1 := { s with
    daily_pnl := s.daily_pnl + trade_pnl
    account_balance_virtual := s.account_balance_virtual + trade_pnl }
  let s2 :=
    if 0 < trade_pnl then
      let w := s1.consecutive_wins + 1
      { s1 with
        consecutive_wins := w
        consecutive_losses := 0
        current_risk_percent :=
          if w = 2 then 1 / 50
          else if 2 < w then 3 / 200
          else s1.current_risk_percent }
    else
      { s1 with
        consecutive_losses := s1.consecutive_losses + 1
        consecutive_wins := 0
        current_risk_percent := 1 / 100 }
  { s2 with last_trade_win := some (decide (0 < trade_pnl)) }

/-- `can_trade` (`topstepx_market_client.py` lines 100-107): false when the
daily P&L is at or below the negated maximum daily loss, or when the
session already has 2 or more trades (the literal `2` from line 104). -/
def can_trade (s : RiskState) (session_key : Session) : Bool :=
  if s.daily_pnl ≤ -MAX_DAILY_LOSS then false
  else if 2 ≤ s.session_trades session_key then false
  else true

/-- `calculate_position_size` (`topstepx_market_client.py` lines 109-121):
risk dollars are a fixed 12% of the virtual balance (`0.12` on line 115 —
`current_risk_percent` is not consulted); contracts are
`max(1, floor(risk_dollars / risk_per_contract))`, with the division
guarded so a zero risk per contract yields 1 contract. -/
def calculate_position_size (s : RiskState) (entry stop : ℚ) : Int :=
  let stop_distance := |entry - stop|
  let ticks := stop_distance / TICK_SIZE
  let risk_per_contract := ticks * TICK_VALUE
  let risk_dollars := max 0 (s.account_balance_virtual * (12 / 100))
  if 0 < risk_per_contract then max 1 ⌊risk_dollars / risk_per_contract⌋
  else 1

/-- Modelled from the spec's words, for comparison with
`calculate_position_size` (claim C2): `risk_dollars = virtual_balance ×
current_risk_percent`, `risk_per_contract = (|entry−stop| / tick_size) ×
tick_value`, `contracts = max(1, floor(risk_dollars /
risk_per_contract))`. -/
def position_size_spec (s : RiskState) (entry stop : ℚ) : Int :=
  let risk_per_contract := |entry - stop| / TICK_SIZE * TICK_VALUE
  let risk_dollars := s.account_balance_virtual * s.current_risk_percent
  if 0 < risk_per_contract then max 1 ⌊risk_dollars / risk_per_contract⌋
  else 1

/-- Bar series exercising the ADR overnight boundary: five formation bars
on date 0 (19:30-19:50, giving `dr_high = 101`, `dr_end = 1190`), one
in-window bar on date 0 at 21:30 whose close breaks nothing, and one bar
at 00:30 on date 1 (absolute time 1470, inside date 0's ADR trading
interval `[1230, 1500]` and strictly after `dr_end`) whose close 105
exceeds `dr_high = 101`. -/
def c1_bars : List Bar :=
  [⟨0, 1170, 100, 101, 99, 100⟩,
   ⟨0, 1175, 100, 101, 99, 100⟩,
   ⟨0, 1180, 100, 101, 99, 100⟩,
   ⟨0, 1185, 100, 101, 99, 100⟩,
   ⟨0, 1190, 100, 101, 99, 100⟩,
   ⟨0, 1290, 100, 100, 100, 100⟩,
   ⟨1, 30, 104, 106, 103, 105⟩]

/-- C1: the claim says any bar strictly after `formation_end` and inside
the ADR trading interval (20:30 on date D through 01:00 on D+1) whose
close exceeds `dr_high` is recorded as date D's confirmation, including
bars after midnight on D+1.  On `c1_bars` the bar at absolute time 1470
(00:30 on date 1, close 105 > dr_high 101, after `dr_end = 1190`)
qualifies — `detect_confirmations_full_window`, which follows the spec's
words, records it — yet `detect_confirmations` as coded groups bars by
calendar date before applying the trading-window mask, so the
post-midnight bar is unreachable and no confirmation is recorded for
date 0 (nor for date 1, whose own window starts at 20:30 on date 1). -/
theorem c1_adr_post_midnight_excluded :
    compute_boundaries Session.adr 0 c1_bars =
      some { dr_high := 101, dr_low := 99, idr_high := 100, idr_low := 100, dr_end := 1190 } ∧
    trading_window Session.adr 0 = (1230, 1500) ∧
    detect_confirmations Session.adr 0 c1_bars = none ∧
    detect_confirmations Session.adr 1 c1_bars = none ∧
    detect_confirmations_full_window Session.adr 0 c1_bars = some (1470, Bias.bullish) := by
  refine ⟨by decide, by decide, by decide, by decide, by decide⟩

/-- C2 counterexample: after one losing trade `current_risk_percent` is 1%
and the virtual balance $1900, so the claimed formula (risk dollars =
balance × current risk percent) gives `max(1, floor(19/5)) = 3` contracts
for a 1-point stop, but `calculate_position_size` uses the fixed 12% of
line 115 and returns 45. -/
theorem c2_counterexample :
    calculate_position_size (update_risk_state init_risk_state (-100)) 101 100 = 45 ∧
    position_size_spec (update_risk_state init_risk_state (-100)) 101 100 = 3 ∧
    calculate_position_size (update_risk_state init_risk_state (-100)) 101 100 ≠
      position_size_spec (update_risk_state init_risk_state (-100)) 101 100 := by
  have hs : update_risk_state init_risk_state (-100) =
      { daily_pnl := -100
        session_trades := fun _ => 0
        session_pnl := fun _ => 0
        consecutive_wins := 0
        consecutive_losses := 1
        current_risk_percent := 1 / 100
        last_trade_win := some false
        account_balance_virtual := 1900 } := by
    simp only [update_risk_state, init_risk_state]
    norm_num
  have h1 : calculate_position_size (update_risk_state init_risk_state (-100)) 101 100 = 45 := by
    rw [hs]
    simp only [calculate_position_size]
    rw [if_pos (by norm_num [TICK_SIZE, TICK_VALUE])]
    rw [max_eq_right (by norm_num : (0:ℚ) ≤ 1900 * (12 / 100))]
    rw [show (1900 * (12 / 100) : ℚ) / (|(101:ℚ) - 100| / TICK_SIZE * TICK_VALUE) = 228 / 5 by
      norm_num [TICK_SIZE, TICK_VALUE]]
    rw [show ⌊(228 / 5 : ℚ)⌋ = 45 from by rw [Int.floor_eq_iff]; norm_num]
    norm_num
  have h2 : position_size_spec (update_risk_state init_risk_state (-100)) 101 100 = 3 := by
    rw [hs]
    simp only [position_size_spec]
    rw [if_pos (by norm_num [TICK_SIZE, TICK_VALUE])]
    rw [show (1900 * (1 / 100) : ℚ) / (|(101:ℚ) - 100| / TICK_SIZE * TICK_VALUE) = 19 / 5 by
      norm_num [TICK_SIZE, TICK_VALUE]]
    rw [show ⌊(19 / 5 : ℚ)⌋ = 3 from by rw [Int.floor_eq_iff]; norm_num]
    norm_num
  exact ⟨h1, h2, by rw [h1, h2]; norm_num⟩

/-- C2 as amended: for `entry ≠ stop` the position size is
`max(1, floor(risk_dollars / risk_per_contract))` with
`risk_per_contract = (|entry−stop| / tick_size) × tick_value`, but the
dollar risk budget is a fixed 12% of the virtual balance
(`max(0, balance × 0.12)`); it does not scale with the RiskManager's
`current_risk_percent` — the result is invariant under changing that
field. -/
theorem c2_amended (s : RiskState) (entry stop : ℚ) (h : entry ≠ stop) :
    calculate_position_size s entry stop =
      max 1 ⌊max 0 (s.account_balance_virtual * (12 / 100)) /
        (|entry - stop| / TICK_SIZE * TICK_VALUE)⌋ ∧
    ∀ rp : ℚ, calculate_position_size { s with current_risk_percent := rp } entry stop =
      calculate_position_size s entry stop := by
  have h1 : (0:ℚ) < |entry - stop| := abs_pos.mpr (sub_ne_zero.mpr h)
  have h2 : (0:ℚ) < |entry - stop| / TICK_SIZE * TICK_VALUE :=
    mul_pos (div_pos h1 (by norm_num [TICK_SIZE])) (by norm_num [TICK_VALUE])
  constructor
  · simp only [calculate_position_size, if_pos h2]
  · intro rp
    rfl

/-- Witness for C2's amended theorem at a concrete input. -/
theorem c2_amended_witness :
    calculate_position_size init_risk_state 101 100 =
      max 1 ⌊max 0 (init_risk_state.account_balance_virtual * (12 / 100)) /
        (|(101:ℚ) - 100| / TICK_SIZE * TICK_VALUE)⌋ :=
  (c2_amended init_risk_state 101 100 (by norm_num)).1

/-- C7: when `daily_pnl` is exactly `−max_daily_loss`, `can_trade` is
false for every session (the guard is `daily_pnl <= -max_daily_loss`,
inclusive); after `reset_daily` the daily P&L is zero and every
per-session trade count is zero, so `can_trade` is true for every
session. -/
theorem c7_daily_loss_gate (s : RiskState) (h : s.daily_pnl = -MAX_DAILY_LOSS) :
    (∀ k, can_trade s k = false) ∧ (∀ k, can_trade (reset_daily s) k = true) := by
  constructor
  · intro k
    simp only [can_trade, h, if_pos (le_refl (-MAX_DAILY_LOSS))]
  · intro k
    have h1 : ¬ ((reset_daily s).daily_pnl ≤ -MAX_DAILY_LOSS) := by
      simp only [reset_daily]
      norm_num [MAX_DAILY_LOSS]
    have h2 : ¬ (2 ≤ (reset_daily s).session_trades k) := by
      simp [reset_daily]
    simp only [can_trade, if_neg h1, if_neg h2]

/-- Witness for C7 at a concrete state. -/
theorem c7_daily_loss_gate_witness :
    can_trade { init_risk_state with daily_pnl := -MAX_DAILY_LOSS } Session.odr = false ∧
    can_trade (reset_daily { init_risk_state with daily_pnl := -MAX_DAILY_LOSS }) Session.odr = true :=
  ⟨(c7_daily_loss_gate _ rfl).1 Session.odr, (c7_daily_loss_gate _ rfl).2 Session.odr⟩

/-- C9: the position size is always at least 1 contract, and in the
degenerate case `entry = stop` the zero risk per contract is caught by
the guard on line 116 and the result is exactly 1 (the embedding is a
total function: no exception is possible). -/
theorem c9_position_size_min_one (s : RiskState) (entry stop : ℚ) :
    1 ≤ calculate_position_size s entry stop ∧
    (entry = stop → calculate_position_size s entry stop = 1) := by
  constructor
  · simp only [calculate_position_size]
    split
    · exact le_max_left _ _
    · exact le_refl 1
  · intro he
    simp [calculate_position_size, he]

/-- Witness for C9 at a concrete input with `entry = stop`. -/
theorem c9_position_size_min_one_witness :
    1 ≤ calculate_position_size init_risk_state 5 5 ∧
    calculate_position_size init_risk_state 5 5 = 1 :=
  ⟨(c9_position_size_min_one init_risk_state 5 5).1,
   (c9_position_size_min_one init_risk_state 5 5).2 rfl⟩

/-- A bar is a well-formed OHLC candle: its open and close lie between its
low and its high.  This is the `Bar` data model's semantic (the high/low
columns are the bar's extremes); `compute_boundaries` itself never checks
it. -/
def wellformed_bars (bars : List Bar) : Prop :=
  ∀ b ∈ bars, b.lo ≤ b.op ∧ b.op ≤ b.hi ∧ b.lo ≤ b.cl ∧ b.cl ≤ b.hi

/-- Folding `max` over pointwise-dominated mapped lists is monotone. -/
theorem foldl_max_map_le {α : Type} (f g : α → ℚ) :
    ∀ (l : List α) (a b : ℚ), a ≤ b → (∀ x ∈ l, f x ≤ g x) →
      (l.map f).foldl max a ≤ (l.map g).foldl max b := by
  intro l
  induction l with
  | nil => intro a b hab _; simpa using hab
  | cons x xs ih =>
    intro a b hab hall
    simp only [List.map_cons, List.foldl_cons]
    exact ih _ _ (max_le_max hab (hall x (by simp)))
      (fun y hy => hall y (List.mem_cons_of_mem _ hy))

/-- Folding `min` over pointwise-dominating mapped lists is antitone. -/
theorem foldl_min_map_le {α : Type} (f g : α → ℚ) :
    ∀ (l : List α) (a b : ℚ), a ≤ b → (∀ x ∈ l, f x ≤ g x) →
      (l.map f).foldl min a ≤ (l.map g).foldl min b := by
  intro l
  induction l with
  | nil => intro a b hab _; simpa using hab
  | cons x xs ih =>
    intro a b hab hall
    simp only [List.map_cons, List.foldl_cons]
    exact ih _ _ (min_le_min hab (hall x (by simp)))
      (fun y hy => hall y (List.mem_cons_of_mem _ hy))

/-- Every bar of the formation slice is a bar of the input series. -/
theorem formation_slice_subset (s : Session) (d : Int) (bars : List Bar) :
    ∀ b ∈ formation_slice s d bars, b ∈ bars := by
  intro b hb
  exact (List.mem_filter.mp hb).1

/-- Unfolding lemma: `compute_boundaries` on an empty formation slice. -/
theorem compute_boundaries_nil (s : Session) (d : Int) (bars : List Bar)
    (hfs : formation_slice s d bars = []) :
    compute_boundaries s d bars = none := by
  unfold compute_boundaries
  rw [hfs]

/-- Unfolding lemma: `compute_boundaries` on a nonempty formation slice. -/
theorem compute_boundaries_cons (s : Session) (d : Int) (bars : List Bar)
    (f : Bar) (rest : List Bar) (hfs : formation_slice s d bars = f :: rest) :
    compute_boundaries s d bars =
      if 5 ≤ (f :: rest).length then
        some
          { dr_high := (rest.map Bar.hi).foldl max f.hi
            dr_low := (rest.map Bar.lo).foldl min f.lo
            idr_high := (rest.map body_high).foldl max (body_high f)
            idr_low := (rest.map body_low).foldl min (body_low f)
            dr_end := Bar.ts (rest.getLastD f) }
      else none := by
  unfold compute_boundaries
  rw [hfs]

/-- C8: for every well-formed bar series and every (session, date) whose
boundaries are defined (the formation slice has at least 5 bars), the
computed boundaries satisfy `idr_high ≤ dr_high` and `dr_low ≤ idr_low`:
the body extremes (max/min of open and close per bar) are bounded by the
wick extremes (high/low per bar). -/
theorem c8_idr_within_dr (s : Session) (d : Int) (bars : List Bar) (b : RangeBoundaries)
    (hw : wellformed_bars bars) (hb : compute_boundaries s d bars = some b) :
    b.idr_high ≤ b.dr_high ∧ b.dr_low ≤ b.idr_low := by
  have hsub := formation_slice_subset s d bars
  rcases hfs : formation_slice s d bars with _ | ⟨f, rest⟩
  · rw [compute_boundaries_nil s d bars hfs] at hb
    exact absurd hb (by simp)
  · rw [compute_boundaries_cons s d bars f rest hfs] at hb
    rw [hfs] at hsub
    split at hb
    · have hb2 := Option.some.inj hb
      subst hb2
      have hmemf : f ∈ bars := hsub f (by simp)
      have hwf := hw f hmemf
      constructor
      · exact foldl_max_map_le body_high Bar.hi rest (body_high f) f.hi
          (max_le hwf.2.1 hwf.2.2.2)
          (fun x hx =>
            have hwx := hw x (hsub x (List.mem_cons_of_mem _ hx))
            max_le hwx.2.1 hwx.2.2.2)
      · exact foldl_min_map_le Bar.lo body_low rest f.lo (body_low f)
          (le_min hwf.1 hwf.2.2.1)
          (fun x hx =>
            have hwx := hw x (hsub x (List.mem_cons_of_mem _ hx))
            le_min hwx.1 hwx.2.2.1)
    · exact absurd hb (by simp)

/-- Bar series for the C8 witness: five RDR-formation bars on date 0 with
wicks beyond the bodies. -/
def c8_bars : List Bar :=
  [⟨0, 570, 10, 12, 9, 11⟩,
   ⟨0, 575, 10, 12, 9, 11⟩,
   ⟨0, 580, 10, 12, 9, 11⟩,
   ⟨0, 585, 10, 12, 9, 11⟩,
   ⟨0, 590, 10, 12, 9, 11⟩]

/-- Witness for C8 at a concrete series. -/
theorem c8_idr_within_dr_witness :
    (RangeBoundaries.mk 12 9 11 10 590).idr_high ≤ (RangeBoundaries.mk 12 9 11 10 590).dr_high ∧
    (RangeBoundaries.mk 12 9 11 10 590).dr_low ≤ (RangeBoundaries.mk 12 9 11 10 590).idr_low :=
  c8_idr_within_dr Session.rdr 0 c8_bars (RangeBoundaries.mk 12 9 11 10 590)
    (by unfold wellformed_bars; decide) (by decide)

/-- The engine state relevant to the bar-close trigger: the
`last_processed_bar` guard map (`session_key -> last bar timestamp`,
`topstepx_market_client.py` line 64) plus the rest of the mutable client
state, abstracted as `σ`.  The body of `run_signals_on_bars` after the
guard (lines 370-603) reads and writes only the `core` part — it never
touches `last_processed_bar` — so it is modelled as an arbitrary function
`σ → σ × List α` returning the new core state and the actions taken. -/
structure EngineState (σ : Type) where
  last_processed_bar : Session → Option Int
  core : σ

/-- The un-guarded remainder of `run_signals_on_bars`: record the latest
bar as processed for this session (line 368, before evaluation), then run
the evaluation body on the core state. -/
def process_new_bar {σ α : Type} (body : σ → σ × List α) (st : EngineState σ)
    (session : Session) (latest_bar_time : Int) : EngineState σ × List α :=
  let st1 : EngineState σ :=
    { last_processed_bar := fun k =>
        if k = session then some latest_bar_time else st.last_processed_bar k
      core := st.core }
  ({ st1 with core := (body st1.core).1 }, (body st1.core).2)

/-- `run_signals_on_bars`'s bar-close trigger (`topstepx_market_client.py`
lines 358-369): if this session's last processed bar timestamp equals the
latest bar's timestamp, return immediately with no evaluation and no
actions; otherwise mark the bar processed and evaluate. -/
def run_signals_on_bars {σ α : Type} (body : σ → σ × List α) (st : EngineState σ)
    (session : Session) (latest_bar_time : Int) : EngineState σ × List α :=
  match st.last_processed_bar session with
  | some t => if t = latest_bar_time then (st, []) else process_new_bar body st session latest_bar_time
  | none => process_new_bar body st session latest_bar_time

/-- After any call, the session's `last_processed_bar` equals the latest
bar time that was just passed in. -/
theorem run_signals_on_bars_marks {σ α : Type} (body : σ → σ × List α) (st : EngineState σ)
    (session : Session) (t : Int) :
    ((run_signals_on_bars body st session t).1).last_processed_bar session = some t := by
  unfold run_signals_on_bars
  cases h : st.last_processed_bar session with
  | none => simp [process_new_bar]
  | some t0 =>
    by_cases ht : t0 = t
    · simp [ht, h]
    · simp [ht, process_new_bar]

/-- C6: bar-close idempotency.  For any session, calling
`run_signals_on_bars` a second time with the same latest-bar timestamp
performs no evaluation and takes no action: the state is returned
unchanged and the action list is empty, whatever the evaluation body
does. -/
theorem c6_bar_close_idempotent {σ α : Type} (body : σ → σ × List α) (st : EngineState σ)
    (session : Session) (t : Int) :
    run_signals_on_bars body (run_signals_on_bars body st session t).1 session t
      = ((run_signals_on_bars body st session t).1, []) := by
  have key := run_signals_on_bars_marks body st session t
  conv_lhs => rw [run_signals_on_bars]
  rw [key]
  simp

/-- One cached boundary entry
(`topstepx_market_client.py` lines 180-187): the DR/IDR values plus the
session's close standard deviation `idr_std`. -/
structure CachedBounds where
  dr_high : ℚ
  dr_low : ℚ
  idr_high : ℚ
  idr_low : ℚ
  dr_end : Int
  idr_std : ℚ
  deriving DecidableEq, Repr

/-- The boundary cache `self.session_cache`, keyed by
(session, formation date) (`topstepx_market_client.py` line 65). -/
def cache_lookup (c : List ((Session × Int) × CachedBounds)) (k : Session × Int) :
    Option CachedBounds :=
  (c.find? fun e => decide (e.1 = k)).map (fun e => e.2)

/-- The session (range-formation) date for a given evaluation instant
(`topstepx_market_client.py` lines 133-136): for ADR before 01:00 it is
the previous calendar date, otherwise the current date. -/
def session_date (sess : Session) (now_date : Int) (now_tod : Nat) : Int :=
  if sess = Session.adr ∧ now_tod < 60 then now_date - 1 else now_date

/-- `get_session_window_bars` (`topstepx_market_client.py` lines 277-302):
the bars of the CURRENT calendar date (`now_est.date()`) whose time of day
lies in the session's formation window, start inclusive, end exclusive
(all three formation windows have `start_t < end_t`, so the
non-overnight branch of line 296 applies). -/
def get_session_window_bars (bars : List Bar) (sess : Session) (now_date : Int) :
    List Bar :=
  bars.filter fun b =>
    decide (b.date = now_date) && decide ((formation_window sess).1 ≤ b.tod) &&
      decide (b.tod < (formation_window sess).2)

/-- `get_or_compute_session_boundaries` (`topstepx_market_client.py` lines
123-191).  `stdFn` abstracts pandas `Series.std` on the window's closes
(an irrational-valued operation kept opaque; no claim depends on its
value).  On a cache hit the source executes
`print(f"... on {current_date}")` where `current_date` is an undefined
name in that scope (the only bindings of `current_date` in the module are
locals of `get_session_window_bars`), so the branch raises `NameError`
before its `return` — embedded as `Except.error ()`.  On a miss the
boundaries for the session date are computed (the most recent non-NaN row
of that date carries exactly `compute_boundaries` of the date's formation
slice), `idr_std` is the window closes' standard deviation (falling back
to 30% of the IDR range when the window is empty), and the result is
cached under (session, session date). -/
def get_or_compute_session_boundaries (stdFn : List ℚ → ℚ)
    (cache : List ((Session × Int) × CachedBounds)) (bars : List Bar)
    (sess : Session) (now_date : Int) (now_tod : Nat) :
    Except Unit (Option CachedBounds × List ((Session × Int) × CachedBounds)) :=
  match cache_lookup cache (sess, session_date sess now_date now_tod) with
  | some _ => Except.error ()
  | none =>
    match compute_boundaries sess (session_date sess now_date now_tod) bars with
    | none => Except.ok (none, cache)
    | some b =>
      let dr_bars := get_session_window_bars bars sess now_date
      let idr_std :=
        if dr_bars.isEmpty then (b.idr_high - b.idr_low) * (3 / 10)
        else stdFn (dr_bars.map Bar.cl)
      let cached : CachedBounds :=
        ⟨b.dr_high, b.dr_low, b.idr_high, b.idr_low, b.dr_end, idr_std⟩
      Except.ok (some cached, ((sess, session_date sess now_date now_tod), cached) :: cache)

/-- C3: the claim says a repeated call whose (session, formation-date) key
is already cached returns normally with the cached values.  In the code
the cache-hit branch always raises `NameError` (its log line references
the undefined name `current_date`), so every such call errors instead of
returning the cached entry. -/
theorem c3_cache_hit_raises (stdFn : List ℚ → ℚ)
    (cache : List ((Session × Int) × CachedBounds)) (bars : List Bar)
    (sess : Session) (now_date : Int) (now_tod : Nat) (b : CachedBounds)
    (h : cache_lookup cache (sess, session_date sess now_date now_tod) = some b) :
    get_or_compute_session_boundaries stdFn cache bars sess now_date now_tod
      = Except.error () := by
  unfold get_or_compute_session_boundaries
  rw [h]

/-- Witness for C3: a concrete cache holding an RDR entry for date 0,
queried again at 11:40 (minute 700) of date 0. -/
theorem c3_cache_hit_raises_witness :
    get_or_compute_session_boundaries (fun _ => 0)
      [((Session.rdr, 0), ⟨12, 9, 11, 10, 590, 1⟩)] [] Session.rdr 0 700
      = Except.error () :=
  c3_cache_hit_raises (fun _ => 0) [((Session.rdr, 0), ⟨12, 9, 11, 10, 590, 1⟩)]
    [] Session.rdr 0 700 ⟨12, 9, 11, 10, 590, 1⟩ (by decide)

/-- The decision taken by the fixed-entry-model block of
`run_signals_on_bars` once a fresh, untraded confirmation with a valid
bias has passed every safety check (`topstepx_market_client.py` lines
476-522). -/
inductive EntryAction where
  | moveMissed
  | waitRetrace
  | submit (entry stop tp : ℚ) (contracts : Int)
  deriving DecidableEq, Repr

/-- The entry/stop/target computation and retrace gating of
`run_signals_on_bars` (`topstepx_market_client.py` lines 476-522).
Bullish (lines 482-503): entry is a 20% retrace from IDR high, stop 2
points below the IDR midpoint, target one `idr_std` above IDR high; if
the current price is already at or past the target the move was missed
(`moveMissed`, line 495-498); if price has not retraced to entry, wait.
Bearish (lines 505-520): mirrored levels, but the code has no
move-missed check — only the retrace wait (line 518). -/
def evaluate_entry (s : RiskState) (bias : Bias) (idr_high idr_low idr_std : ℚ)
    (current_price : ℚ) : EntryAction :=
  let idr_range := idr_high - idr_low
  let idr_midpoint := idr_low + (1 / 2) * idr_range
  match bias with
  | Bias.bullish =>
    let entry_price := idr_high - (1 / 5) * idr_range
    let stop_loss := idr_midpoint - 2
    let take_profit := idr_high + idr_std
    if take_profit ≤ current_price then EntryAction.moveMissed
    else if entry_price < current_price then EntryAction.waitRetrace
    else EntryAction.submit entry_price stop_loss take_profit
      (calculate_position_size s entry_price stop_loss)
  | Bias.bearish =>
    let entry_price := idr_low + (1 / 5) * idr_range
    let stop_loss := idr_midpoint + 2
    let take_profit := idr_low - idr_std
    if current_price < entry_price then EntryAction.waitRetrace
    else EntryAction.submit entry_price stop_loss take_profit
      (calculate_position_size s entry_price stop_loss)

/-- Whether the action increments the session's trade count: `moveMissed`
does (line 497), and every submission path does — success (line 576),
order failure (line 584) and exception (line 592) alike; only the
retrace wait returns without touching the counter. -/
def consumes_session_slot : EntryAction → Bool
  | EntryAction.waitRetrace => false
  | _ => true

/-- Whether the action submits a broker order (`place_order`, line 546). -/
def submits_order : EntryAction → Bool
  | EntryAction.submit _ _ _ _ => true
  | _ => false

/-- C4 counterexample: a bearish confirmation with IDR 94-100 and
`idr_std = 3` has entry 95.2 and take-profit 91; at current price 90 the
price has moved past the take-profit level without retracing to entry,
yet the code's action is `waitRetrace` — no trade-count increment, no
session slot consumed — because the move-missed branch exists only on
the bullish side. -/
theorem c4_counterexample :
    evaluate_entry init_risk_state Bias.bearish 100 94 3 90 = EntryAction.waitRetrace ∧
    consumes_session_slot (evaluate_entry init_risk_state Bias.bearish 100 94 3 90) = false ∧
    (90 : ℚ) ≤ 94 - 3 := by
  have h : evaluate_entry init_risk_state Bias.bearish 100 94 3 90 = EntryAction.waitRetrace := by
    simp only [evaluate_entry]
    rw [if_pos (by norm_num)]
  exact ⟨h, by rw [h]; rfl, by norm_num⟩

/-- C4 as amended: only for bullish confirmed signals does the engine
handle the missed move — when the current price is at or beyond the
take-profit level (`idr_high + idr_std`), the action is `moveMissed`,
which consumes one of the session's two trade slots and submits no
order.  (For bearish signals no such branch exists; a price beyond the
bearish target merely waits for a retrace, as the counterexample
shows.) -/
theorem c4_amended (s : RiskState) (idr_high idr_low idr_std current_price : ℚ)
    (h : idr_high + idr_std ≤ current_price) :
    evaluate_entry s Bias.bullish idr_high idr_low idr_std current_price
      = EntryAction.moveMissed ∧
    consumes_session_slot (evaluate_entry s Bias.bullish idr_high idr_low idr_std current_price)
      = true ∧
    submits_order (evaluate_entry s Bias.bullish idr_high idr_low idr_std current_price)
      = false := by
  have he : evaluate_entry s Bias.bullish idr_high idr_low idr_std current_price
      = EntryAction.moveMissed := by
    simp only [evaluate_entry]
    rw [if_pos h]
  exact ⟨he, by rw [he]; rfl, by rw [he]; rfl⟩

/-- Witness for C4's amended theorem at a concrete bullish input whose
price 104 is beyond the target 103. -/
theorem c4_amended_witness :
    evaluate_entry init_risk_state Bias.bullish 100 94 3 104 = EntryAction.moveMissed ∧
    consumes_session_slot (evaluate_entry init_risk_state Bias.bullish 100 94 3 104) = true ∧
    submits_order (evaluate_entry init_risk_state Bias.bullish 100 94 3 104) = false :=
  c4_amended init_risk_state 100 94 3 104 (by norm_num)

/-- An open trade record as appended by `run_signals_on_bars`
(`topstepx_market_client.py` lines 558-574) and mutated by
`check_open_trades`.  `trailing_stop_price` is `None` until activation in
the source; it is modelled as a plain rational because the engine only
reads it while `trailing_stop_active` is true, which is set in the same
statement group that assigns the price (lines 672-673 / 724-725).
Likewise `highest_price` is only read for bullish trades and
`lowest_price` only for bearish ones. -/
structure Trade where
  bias : Bias
  entry : ℚ
  stop : ℚ
  tp : ℚ
  contracts : Nat
  contracts_remaining : Nat
  partial_taken : Bool
  trailing_stop_active : Bool
  trailing_stop_price : ℚ
  highest_price : ℚ
  lowest_price : ℚ
  deriving DecidableEq, Repr

/-- `int(contracts * 0.75)` (`topstepx_market_client.py` lines 662, 714):
`0.75` is exactly `3/4` in binary floating point and `contracts` is a
non-negative int, so the float truncation is exactly `3 * n / 4` in
natural division. -/
def contracts_to_close (n : Nat) : Nat := 3 * n / 4

/-- Why a trade left the open list. -/
inductive CloseReason where
  | timeLimit
  | stopLoss
  | trailingStop
  deriving DecidableEq, Repr

/-- Outcome of one `check_open_trades` pass over a single trade. -/
inductive TickResult where
  | stillOpen : Trade → TickResult
  | closedFull : CloseReason → TickResult
  deriving DecidableEq, Repr

/-- Extremum update at the top of each branch (`topstepx_market_client.py`
lines 646-648): the highest price seen is raised to the current price
when exceeded. -/
def update_highest (p : ℚ) (t : Trade) : Trade :=
  if t.highest_price < p then { t with highest_price := p } else t

/-- Extremum update for bearish trades (lines 698-700). -/
def update_lowest (p : ℚ) (t : Trade) : Trade :=
  if p < t.lowest_price then { t with lowest_price := p } else t

/-- Bullish partial take-profit (lines 660-677): when price reaches the
target, the partial has not been taken yet, and 75% of the original size
truncates to a positive count, close that part, mark the partial taken
and activate the trailing stop 5 points below the current price. -/
def bullish_partial_tp (p : ℚ) (t : Trade) : Trade :=
  if t.tp ≤ p ∧ t.partial_taken = false ∧ 0 < contracts_to_close t.contracts then
    { t with
      partial_taken := true
      contracts_remaining := t.contracts - contracts_to_close t.contracts
      trailing_stop_active := true
      trailing_stop_price := p - 5 }
  else t

/-- Bearish partial take-profit (lines 712-729), trailing stop 5 points
above the current price. -/
def bearish_partial_tp (p : ℚ) (t : Trade) : Trade :=
  if p ≤ t.tp ∧ t.partial_taken = false ∧ 0 < contracts_to_close t.contracts then
    { t with
      partial_taken := true
      contracts_remaining := t.contracts - contracts_to_close t.contracts
      trailing_stop_active := true
      trailing_stop_price := p + 5 }
  else t

/-- Bullish trailing-stop block (lines 679-694): while active, raise the
trailing stop to 5 points below the highest seen price whenever that is
higher, then close the remainder if the current price is at or below the
(possibly just raised) trailing stop. -/
def bullish_trailing (p : ℚ) (t : Trade) : TickResult :=
  if t.trailing_stop_active = true then
    let t3 :=
      if t.trailing_stop_price < t.highest_price - 5 then
        { t with trailing_stop_price := t.highest_price - 5 }
      else t
    if p ≤ t3.trailing_stop_price then TickResult.closedFull CloseReason.trailingStop
    else TickResult.stillOpen t3
  else TickResult.stillOpen t

/-- Bearish trailing-stop block (lines 731-746): lower the trailing stop
to 5 points above the lowest seen price whenever that is lower, then
close if the price is at or above it. -/
def bearish_trailing (p : ℚ) (t : Trade) : TickResult :=
  if t.trailing_stop_active = true then
    let t3 :=
      if t.lowest_price + 5 < t.trailing_stop_price then
        { t with trailing_stop_price := t.lowest_price + 5 }
      else t
    if t3.trailing_stop_price ≤ p then TickResult.closedFull CloseReason.trailingStop
    else TickResult.stillOpen t3
  else TickResult.stillOpen t

/-- One `check_open_trades` pass over a single trade
(`topstepx_market_client.py` lines 621-746): time-limit exit first (more
than 3600 seconds in the trade closes everything, lines 630-642), then
per-bias: extremum update, stop-loss check (close all), partial
take-profit, trailing-stop ratchet and exit.  `elapsed` is the seconds
since the trade opened, `p` the current price (latest bar close). -/
def check_open_trade_step (elapsed p : ℚ) (t : Trade) : TickResult :=
  if 3600 < elapsed then TickResult.closedFull CloseReason.timeLimit
  else
    match t.bias with
    | Bias.bullish =>
      let t1 := update_highest p t
      if p ≤ t1.stop then TickResult.closedFull CloseReason.stopLoss
      else bullish_trailing p (bullish_partial_tp p t1)
    | Bias.bearish =>
      let t1 := update_lowest p t
      if t1.stop ≤ p then TickResult.closedFull CloseReason.stopLoss
      else bearish_trailing p (bearish_partial_tp p t1)

/-- A sequence of `check_open_trades` passes: each element of `ticks` is
an (elapsed seconds, current price) pair; a closed trade stays closed. -/
def run_ticks : Trade → List (ℚ × ℚ) → TickResult
  | t, [] => TickResult.stillOpen t
  | t, tick :: rest =>
    match check_open_trade_step tick.1 tick.2 t with
    | TickResult.stillOpen t1 => run_ticks t1 rest
    | TickResult.closedFull r => TickResult.closedFull r

/-- `update_highest` changes only the `highest_price` field. -/
theorem update_highest_fields (p : ℚ) (t : Trade) :
    (update_highest p t).bias = t.bias ∧
    (update_highest p t).stop = t.stop ∧
    (update_highest p t).contracts = t.contracts ∧
    (update_highest p t).partial_taken = t.partial_taken ∧
    (update_highest p t).trailing_stop_active = t.trailing_stop_active ∧
    (update_highest p t).trailing_stop_price = t.trailing_stop_price := by
  unfold update_highest
  split <;> simp

/-- `update_lowest` changes only the `lowest_price` field. -/
theorem update_lowest_fields (p : ℚ) (t : Trade) :
    (update_lowest p t).bias = t.bias ∧
    (update_lowest p t).stop = t.stop ∧
    (update_lowest p t).contracts = t.contracts ∧
    (update_lowest p t).partial_taken = t.partial_taken ∧
    (update_lowest p t).trailing_stop_active = t.trailing_stop_active ∧
    (update_lowest p t).trailing_stop_price = t.trailing_stop_price := by
  unfold update_lowest
  split <;> simp

/-- A trade whose partial was already taken is untouched by the bullish
partial-take-profit block. -/
theorem bullish_partial_tp_of_taken (p : ℚ) (t : Trade) (hp : t.partial_taken = true) :
    bullish_partial_tp p t = t := by
  unfold bullish_partial_tp
  rw [if_neg]
  simp [hp]

/-- A trade whose partial was already taken is untouched by the bearish
partial-take-profit block. -/
theorem bearish_partial_tp_of_taken (p : ℚ) (t : Trade) (hp : t.partial_taken = true) :
    bearish_partial_tp p t = t := by
  unfold bearish_partial_tp
  rw [if_neg]
  simp [hp]

/-- When 75% of the trade's size truncates to zero contracts, the bullish
partial-take-profit block does nothing. -/
theorem bullish_partial_tp_of_zero (p : ℚ) (t : Trade)
    (hc : contracts_to_close t.contracts = 0) : bullish_partial_tp p t = t := by
  unfold bullish_partial_tp
  rw [if_neg]
  simp [hc]

/-- When 75% of the trade's size truncates to zero contracts, the bearish
partial-take-profit block does nothing. -/
theorem bearish_partial_tp_of_zero (p : ℚ) (t : Trade)
    (hc : contracts_to_close t.contracts = 0) : bearish_partial_tp p t = t := by
  unfold bearish_partial_tp
  rw [if_neg]
  simp [hc]

/-- With the trailing stop inactive, the bullish trailing block leaves the
trade open and unchanged. -/
theorem bullish_trailing_inactive (p : ℚ) (t : Trade)
    (ha : t.trailing_stop_active = false) :
    bullish_trailing p t = TickResult.stillOpen t := by
  unfold bullish_trailing
  rw [if_neg]
  simp [ha]

/-- With the trailing stop inactive, the bearish trailing block leaves the
trade open and unchanged. -/
theorem bearish_trailing_inactive (p : ℚ) (t : Trade)
    (ha : t.trailing_stop_active = false) :
    bearish_trailing p t = TickResult.stillOpen t := by
  unfold bearish_trailing
  rw [if_neg]
  simp [ha]

/-- If the bullish trailing block keeps the trade open, the trailing stop
did not fall (it was ratcheted up or left alone) and every other field is
preserved. -/
theorem bullish_trailing_mono (p : ℚ) (t t' : Trade)
    (ha : t.trailing_stop_active = true)
    (h : bullish_trailing p t = TickResult.stillOpen t') :
    t.trailing_stop_price ≤ t'.trailing_stop_price ∧
    t'.trailing_stop_active = true ∧ t'.partial_taken = t.partial_taken ∧
    t'.bias = t.bias := by
  unfold bullish_trailing at h
  rw [if_pos ha] at h
  by_cases h1 : t.trailing_stop_price < t.highest_price - 5
  · simp only [if_pos h1] at h
    by_cases h2 : p ≤ t.highest_price - 5
    · rw [if_pos h2] at h
      simp at h
    · rw [if_neg h2] at h
      have h3 := (TickResult.stillOpen.inj h).symm
      subst h3
      exact ⟨le_of_lt h1, ha, rfl, rfl⟩
  · simp only [if_neg h1] at h
    by_cases h2 : p ≤ t.trailing_stop_price
    · rw [if_pos h2] at h
      simp at h
    · rw [if_neg h2] at h
      have h3 := (TickResult.stillOpen.inj h).symm
      subst h3
      exact ⟨le_refl _, ha, rfl, rfl⟩

/-- If the bearish trailing block keeps the trade open, the trailing stop
did not rise and every other field is preserved. -/
theorem bearish_trailing_mono (p : ℚ) (t t' : Trade)
    (ha : t.trailing_stop_active = true)
    (h : bearish_trailing p t = TickResult.stillOpen t') :
    t'.trailing_stop_price ≤ t.trailing_stop_price ∧
    t'.trailing_stop_active = true ∧ t'.partial_taken = t.partial_taken ∧
    t'.bias = t.bias := by
  unfold bearish_trailing at h
  rw [if_pos ha] at h
  by_cases h1 : t.lowest_price + 5 < t.trailing_stop_price
  · simp only [if_pos h1] at h
    by_cases h2 : t.lowest_price + 5 ≤ p
    · rw [if_pos h2] at h
      simp at h
    · rw [if_neg h2] at h
      have h3 := (TickResult.stillOpen.inj h).symm
      subst h3
      exact ⟨le_of_lt h1, ha, rfl, rfl⟩
  · simp only [if_neg h1] at h
    by_cases h2 : t.trailing_stop_price ≤ p
    · rw [if_pos h2] at h
      simp at h
    · rw [if_neg h2] at h
      have h3 := (TickResult.stillOpen.inj h).symm
      subst h3
      exact ⟨le_refl _, ha, rfl, rfl⟩

/-- One tick preserves the bullish trailing-stop ratchet: an active,
partial-taken bullish trade that stays open keeps bias, activation and
partial flags and its trailing stop does not fall. -/
theorem step_mono_bullish (e p : ℚ) (t t' : Trade) (hb : t.bias = Bias.bullish)
    (ha : t.trailing_stop_active = true) (hp : t.partial_taken = true)
    (h : check_open_trade_step e p t = TickResult.stillOpen t') :
    t.trailing_stop_price ≤ t'.trailing_stop_price ∧
    t'.trailing_stop_active = true ∧ t'.partial_taken = true ∧
    t'.bias = Bias.bullish := by
  unfold check_open_trade_step at h
  by_cases h0 : (3600 : ℚ) < e
  · rw [if_pos h0] at h
    simp at h
  rw [if_neg h0] at h
  simp only [hb] at h
  by_cases h2 : p ≤ (update_highest p t).stop
  · rw [if_pos h2] at h
    simp at h
  rw [if_neg h2] at h
  obtain ⟨hf1, _, _, hf4, hf5, hf6⟩ := update_highest_fields p t
  rw [bullish_partial_tp_of_taken p _ (by rw [hf4, hp])] at h
  obtain ⟨hle, ha2, hp2, hb2⟩ := bullish_trailing_mono p _ t' (by rw [hf5, ha]) h
  exact ⟨by rw [← hf6]; exact hle, ha2, by rw [hp2, hf4, hp], by rw [hb2, hf1, hb]⟩

/-- One tick preserves the bearish trailing-stop ratchet. -/
theorem step_mono_bearish (e p : ℚ) (t t' : Trade) (hb : t.bias = Bias.bearish)
    (ha : t.trailing_stop_active = true) (hp : t.partial_taken = true)
    (h : check_open_trade_step e p t = TickResult.stillOpen t') :
    t'.trailing_stop_price ≤ t.trailing_stop_price ∧
    t'.trailing_stop_active = true ∧ t'.partial_taken = true ∧
    t'.bias = Bias.bearish := by
  unfold check_open_trade_step at h
  by_cases h0 : (3600 : ℚ) < e
  · rw [if_pos h0] at h
    simp at h
  rw [if_neg h0] at h
  simp only [hb] at h
  by_cases h2 : (update_lowest p t).stop ≤ p
  · rw [if_pos h2] at h
    simp at h
  rw [if_neg h2] at h
  obtain ⟨hf1, _, _, hf4, hf5, hf6⟩ := update_lowest_fields p t
  rw [bearish_partial_tp_of_taken p _ (by rw [hf4, hp])] at h
  obtain ⟨hle, ha2, hp2, hb2⟩ := bearish_trailing_mono p _ t' (by rw [hf5, ha]) h
  exact ⟨by rw [← hf6]; exact hle, ha2, by rw [hp2, hf4, hp], by rw [hb2, hf1, hb]⟩

/-- Ratchet over a whole tick sequence, bullish side. -/
theorem run_ticks_mono_bullish :
    ∀ (ticks : List (ℚ × ℚ)) (t t' : Trade), t.bias = Bias.bullish →
      t.trailing_stop_active = true → t.partial_taken = true →
      run_ticks t ticks = TickResult.stillOpen t' →
      t.trailing_stop_price ≤ t'.trailing_stop_price := by
  intro ticks
  induction ticks with
  | nil =>
    intro t t' _ _ _ h
    simp only [run_ticks, TickResult.stillOpen.injEq] at h
    rw [h]
  | cons tick rest ih =>
    intro t t' hb ha hp h
    cases hs : check_open_trade_step tick.1 tick.2 t with
    | stillOpen t1 =>
      simp only [run_ticks, hs] at h
      obtain ⟨hle, ha1, hp1, hb1⟩ := step_mono_bullish tick.1 tick.2 t t1 hb ha hp hs
      exact le_trans hle (ih t1 t' hb1 ha1 hp1 h)
    | closedFull r =>
      simp [run_ticks, hs] at h

/-- Ratchet over a whole tick sequence, bearish side. -/
theorem run_ticks_mono_bearish :
    ∀ (ticks : List (ℚ × ℚ)) (t t' : Trade), t.bias = Bias.bearish →
      t.trailing_stop_active = true → t.partial_taken = true →
      run_ticks t ticks = TickResult.stillOpen t' →
      t'.trailing_stop_price ≤ t.trailing_stop_price := by
  intro ticks
  induction ticks with
  | nil =>
    intro t t' _ _ _ h
    simp only [run_ticks, TickResult.stillOpen.injEq] at h
    rw [h]
  | cons tick rest ih =>
    intro t t' hb ha hp h
    cases hs : check_open_trade_step tick.1 tick.2 t with
    | stillOpen t1 =>
      simp only [run_ticks, hs] at h
      obtain ⟨hle, ha1, hp1, hb1⟩ := step_mono_bearish tick.1 tick.2 t t1 hb ha hp hs
      exact le_trans (ih t1 t' hb1 ha1 hp1 h) hle
    | closedFull r =>
      simp [run_ticks, hs] at h

/-- C5: once a trade's trailing stop is active, across any sequence of
`check_open_trades` ticks that leaves it open the trailing stop never
decreases for a long (bullish) trade and never increases for a short
(bearish) trade.  The hypothesis `partial_taken = true` is the engine's
state invariant: `trailing_stop_active` and `partial_taken` are both
created false (lines 568-569) and are only ever set, together, by the
partial-take-profit block (lines 670-672 / 722-724), so every engine
trade with an active trailing stop has its partial taken. -/
theorem c5_trailing_monotone (t : Trade) (ticks : List (ℚ × ℚ)) (t' : Trade)
    (ha : t.trailing_stop_active = true) (hp : t.partial_taken = true)
    (h : run_ticks t ticks = TickResult.stillOpen t') :
    (t.bias = Bias.bullish → t.trailing_stop_price ≤ t'.trailing_stop_price) ∧
    (t.bias = Bias.bearish → t'.trailing_stop_price ≤ t.trailing_stop_price) :=
  ⟨fun hb => run_ticks_mono_bullish ticks t t' hb ha hp h,
   fun hb => run_ticks_mono_bearish ticks t t' hb ha hp h⟩

/-- A bullish trade with an active trailing stop at 100 and highest seen
price 105, three partial-taken contracts already closed of four. -/
def c5_trade : Trade :=
  ⟨Bias.bullish, 100, 90, 105, 4, 1, true, true, 100, 105, 0⟩

/-- The same trade after one tick at price 107: the ratchet raised the
trailing stop to 102 and the highest price to 107. -/
def c5_trade_after : Trade :=
  ⟨Bias.bullish, 100, 90, 105, 4, 1, true, true, 102, 107, 0⟩

/-- Witness for C5 on the concrete tick sequence `[(10, 107)]`. -/
theorem c5_trailing_monotone_witness :
    c5_trade.trailing_stop_price ≤ c5_trade_after.trailing_stop_price :=
  (c5_trailing_monotone c5_trade [(10, 107)] c5_trade_after rfl rfl (by
    simp only [run_ticks, check_open_trade_step, update_highest, bullish_partial_tp,
      bullish_trailing, contracts_to_close, c5_trade, c5_trade_after]
    norm_num)).1 rfl

/-- One tick of a 1-contract trade that has taken no partial: the partial
branch cannot fire (75% of 1 truncates to 0) and the trailing block is
inert, so the trade either stays open with both flags still false or
closes by stop loss or time limit. -/
theorem step_single_contract (e p : ℚ) (t : Trade) (h1 : t.contracts = 1)
    (h2 : t.partial_taken = false) (h3 : t.trailing_stop_active = false) :
    (∀ t', check_open_trade_step e p t = TickResult.stillOpen t' →
      t'.contracts = 1 ∧ t'.partial_taken = false ∧ t'.trailing_stop_active = false) ∧
    (∀ r, check_open_trade_step e p t = TickResult.closedFull r →
      r = CloseReason.stopLoss ∨ r = CloseReason.timeLimit) := by
  unfold check_open_trade_step
  by_cases h0 : (3600 : ℚ) < e
  · rw [if_pos h0]
    constructor
    · intro t' h
      simp at h
    · intro r h
      exact Or.inr (TickResult.closedFull.inj h).symm
  rw [if_neg h0]
  cases hbias : t.bias with
  | bullish =>
    dsimp only
    obtain ⟨_, _, hf3, hf4, hf5, _⟩ := update_highest_fields p t
    have hc : contracts_to_close (update_highest p t).contracts = 0 := by
      rw [hf3, h1]
      rfl
    rw [bullish_partial_tp_of_zero p _ hc,
      bullish_trailing_inactive p _ (by rw [hf5, h3])]
    by_cases hstop : p ≤ (update_highest p t).stop
    · rw [if_pos hstop]
      constructor
      · intro t' h
        simp at h
      · intro r h
        exact Or.inl (TickResult.closedFull.inj h).symm
    · rw [if_neg hstop]
      constructor
      · intro t' h
        have h4 := (TickResult.stillOpen.inj h).symm
        subst h4
        exact ⟨by rw [hf3, h1], by rw [hf4, h2], by rw [hf5, h3]⟩
      · intro r h
        simp at h
  | bearish =>
    dsimp only
    obtain ⟨_, _, hf3, hf4, hf5, _⟩ := update_lowest_fields p t
    have hc : contracts_to_close (update_lowest p t).contracts = 0 := by
      rw [hf3, h1]
      rfl
    rw [bearish_partial_tp_of_zero p _ hc,
      bearish_trailing_inactive p _ (by rw [hf5, h3])]
    by_cases hstop : (update_lowest p t).stop ≤ p
    · rw [if_pos hstop]
      constructor
      · intro t' h
        simp at h
      · intro r h
        exact Or.inl (TickResult.closedFull.inj h).symm
    · rw [if_neg hstop]
      constructor
      · intro t' h
        have h4 := (TickResult.stillOpen.inj h).symm
        subst h4
        exact ⟨by rw [hf3, h1], by rw [hf4, h2], by rw [hf5, h3]⟩
      · intro r h
        simp at h

/-- C10: a trade whose total size is exactly 1 contract can never take
the 75% partial (it truncates to 0 contracts and the close is guarded by
`contracts_to_close > 0`), so across any tick sequence `partial_taken`
stays false and the trailing stop never activates, and the position can
only close by stop loss or the 1-hour time limit, never by the
target/trailing mechanism. -/
theorem c10_single_contract_no_partial_tp (t : Trade) (ticks : List (ℚ × ℚ))
    (h1 : t.contracts = 1) (h2 : t.partial_taken = false)
    (h3 : t.trailing_stop_active = false) :
    (∀ t', run_ticks t ticks = TickResult.stillOpen t' →
      t'.contracts = 1 ∧ t'.partial_taken = false ∧ t'.trailing_stop_active = false) ∧
    (∀ r, run_ticks t ticks = TickResult.closedFull r →
      r = CloseReason.stopLoss ∨ r = CloseReason.timeLimit) := by
  induction ticks generalizing t with
  | nil =>
    constructor
    · intro t' h
      simp only [run_ticks, TickResult.stillOpen.injEq] at h
      subst h
      exact ⟨h1, h2, h3⟩
    · intro r h
      simp [run_ticks] at h
  | cons tick rest ih =>
    cases hs : check_open_trade_step tick.1 tick.2 t with
    | stillOpen t1 =>
      obtain ⟨k1, k2, k3⟩ := (step_single_contract tick.1 tick.2 t h1 h2 h3).1 t1 hs
      constructor
      · intro t' h
        simp only [run_ticks, hs] at h
        exact (ih t1 k1 k2 k3).1 t' h
      · intro r h
        simp only [run_ticks, hs] at h
        exact (ih t1 k1 k2 k3).2 r h
    | closedFull r0 =>
      have hr := (step_single_contract tick.1 tick.2 t h1 h2 h3).2 r0 hs
      constructor
      · intro t' h
        simp [run_ticks, hs] at h
      · intro r h
        simp only [run_ticks, hs, TickResult.closedFull.injEq] at h
        subst h
        exact hr

/-- A 1-contract bullish trade: entry 100, stop 90, target 105, no
partial taken, trailing inactive. -/
def c10_trade : Trade :=
  ⟨Bias.bullish, 100, 90, 105, 1, 1, false, false, 0, 100, 0⟩

/-- The same trade after one tick at price 106 (beyond the target): only
the highest seen price changed — no partial, no trailing activation. -/
def c10_trade_after : Trade :=
  ⟨Bias.bullish, 100, 90, 105, 1, 1, false, false, 0, 106, 0⟩

/-- Witness for C10: one tick at price 106, beyond the 105 target, leaves
the flags untouched. -/
theorem c10_single_contract_no_partial_tp_witness :
    c10_trade_after.contracts = 1 ∧ c10_trade_after.partial_taken = false ∧
    c10_trade_after.trailing_stop_active = false :=
  (c10_single_contract_no_partial_tp c10_trade [(10, 106)] rfl rfl rfl).1
    c10_trade_after (by decide)

end QX
